import Mathlib

/-!
Verification development for the federation repository: a shallow embedding of
the query-planner crate entry points (`src/stargate/crates/query-planner/src/lib.rs`)
and of the graph-registry HTTP client (`src/apollo/src/graphql/client.rs`),
together with theorems settling the behavioural claims about them.

Rust `Result`-returning functions that can additionally `panic!` are embedded
with a three-valued `Outcome` type: `ok` and `err` are the two normal returns,
`abort` is a process-terminating panic carrying the panic message.  External
effects (the HTTP POST, `serde_json` decoding, the `graphql_parser` calls) are
represented by their results, passed to the embedded function as arguments;
the code under verification is everything the function does with those results.
-/

namespace Federation

/-- Outcome of running a Rust function that returns `Result` but may also
panic: `ok`/`err` are the `Ok`/`Err` returns, `abort` models `panic!` (an
uncatchable process abort) with its message. -/
inductive Outcome (ε α : Type) where
  | ok : α → Outcome ε α
  | err : ε → Outcome ε α
  | abort : String → Outcome ε α
  deriving DecidableEq

/- ### Graph-registry HTTP client (`src/apollo/src/graphql/client.rs`)

The deserialized response shapes, exactly as the `#[derive(Deserialize)]`
structs declare them (including the `Respose` typo in the memberships
wrapper). -/

/-- Embeds `GraphqlError`: one entry of the envelope `errors` array. -/
structure GraphqlError where
  message : String
  deriving DecidableEq

/-- Embeds `CreateGraphResponseApiKey`. -/
structure CreateGraphResponseApiKey where
  token : String
  deriving DecidableEq

/-- Embeds `CreateGraphResponseNewService`. -/
structure CreateGraphResponseNewService where
  id : String
  apiKeys : List CreateGraphResponseApiKey
  deriving DecidableEq

/-- Embeds `CreateGraphResponseData`. -/
structure CreateGraphResponseData where
  newService : CreateGraphResponseNewService
  deriving DecidableEq

/-- Embeds `CreateGraphResponse`: the `\x7bdata, errors\x7d` envelope of the
create-graph mutation. -/
structure CreateGraphResponse where
  data : Option CreateGraphResponseData
  errors : Option (List GraphqlError)
  deriving DecidableEq

/-- Embeds `GetOrgMembershipResponseAccount`. -/
structure GetOrgMembershipResponseAccount where
  id : String
  deriving DecidableEq

/-- Embeds `GetOrgMembershipResponseMembership`. -/
structure GetOrgMembershipResponseMembership where
  account : GetOrgMembershipResponseAccount
  deriving DecidableEq

/-- Embeds `GetOrgMembershipResposeMemberships` (source spelling kept). -/
structure GetOrgMembershipResposeMemberships where
  memberships : List GetOrgMembershipResponseMembership
  deriving DecidableEq

/-- Embeds `GetOrgMembershipResponseMe`. -/
structure GetOrgMembershipResponseMe where
  me : Option GetOrgMembershipResposeMemberships
  deriving DecidableEq

/-- Embeds `GetOrgMembershipResponse`: the `\x7bdata, errors\x7d` envelope of
the org-membership query. -/
structure GetOrgMembershipResponse where
  data : Option GetOrgMembershipResponseMe
  errors : Option (List GraphqlError)
  deriving DecidableEq

/-- Embeds `ApolloCloudClient::execute_operation_no_variables`.  The two
external effects are passed in as their results: `send` is the outcome of the
HTTP POST plus reading the body text (`Except.error` models a `reqwest`
transport failure) and `decoded` is the outcome of `serde_json::from_str` on
the body.  The Rust code panics on both failure paths (`Err(e) => panic!(e)`
for transport, `panic!(format!("Invalid response from Apollo cloud!..."))` for
decoding); its declared `Err` variant is never produced. -/
def execute_operation_no_variables {T : Type} (send : Except String String)
    (decoded : Except String T) : Outcome String T :=
  match send with
  | .error e => .abort e
  | .ok _ =>
    match decoded with
    | .ok r => .ok r
    | .error e => .abort ("Invalid response from Apollo cloud!\n" ++ e)

/-- Embeds `ApolloCloudClient::execute_operation`.  Identical control flow to
`execute_operation_no_variables`; `variables` is the serialized-variables
payload (its `serde_json::to_string(..).unwrap()` succeeds for the struct
types the client uses and does not affect control flow). -/
def execute_operation {T V : Type} (_vs : V) (send : Except String String)
    (decoded : Except String T) : Outcome String T :=
  match send with
  | .error e => .abort e
  | .ok _ =>
    match decoded with
    | .ok r => .ok r
    | .error e => .abort ("Invalid response from Apollo cloud!\n" ++ e)

/-- Embeds `ApolloCloudClient::get_org_memberships`.  After
`execute_operation_no_variables`, the Rust code matches only the `Ok`/`Err`
result (a panic propagates); on `Ok` it runs `result.data.unwrap().me` — a
panic when `data` is `None` — and otherwise returns the account-id set or the
authentication error.  The returned `HashSet<String>` is modelled as a
`Finset String`. -/
def get_org_memberships (send : Except String String)
    (decoded : Except String GetOrgMembershipResponse) :
    Outcome String (Finset String) :=
  match execute_operation_no_variables send decoded with
  | .abort m => .abort m
  | .err _ => .err "Could not fetch organizations"
  | .ok result =>
    match result.data with
    | none => .abort "called Option::unwrap() on a None value"
    | some d =>
      match d.me with
      | some me =>
        .ok ((me.memberships.map (fun it => it.account.id)).toFinset)
      | none =>
        .err "Could not authenticate. Please check that your auth token is up-to-date"

/-- Embeds `ApolloCloudClient::create_new_graph`.  The Rust code calls
`execute_operation(..).unwrap()` — a panic when that returns `Err` — and then
`result.data.unwrap().newService.apiKeys[0].token.clone()`: a panic when
`data` is `None` and a panic (index out of bounds) when `apiKeys` is empty.
No `Err` value is ever constructed in the body. -/
def create_new_graph (graph_id account_id : String)
    (send : Except String String)
    (decoded : Except String CreateGraphResponse) : Outcome String String :=
  match execute_operation (graph_id, account_id) send decoded with
  | .abort m => .abort m
  | .err e => .abort e
  | .ok result =>
    match result.data with
    | none => .abort "called Option::unwrap() on a None value"
    | some d =>
      match d.newService.apiKeys with
      | [] => .abort "index out of bounds: the len is 0 but the index is 0"
      | k :: _ => .ok k.token

/- ### Query planner (`src/stargate/crates/query-planner/src/lib.rs`) -/

/-- Embeds `graphql_parser::ParseError` at the depth the claims need: an
opaque parse failure carrying a message. -/
structure ParseError where
  message : String
  deriving DecidableEq

/-- One field of a schema type definition, carrying the owning-subgraph tag
described by the data model of the composed schema. -/
structure FieldDefinition where
  name : String
  owningSubgraph : String
  deriving DecidableEq

/-- One type definition of the schema document. -/
structure TypeDefinition where
  name : String
  fields : List FieldDefinition
  deriving DecidableEq

/-- Embeds `graphql_parser::schema::Document` at the depth the claims need:
the list of type definitions with per-field ownership. -/
structure SchemaDocument where
  definitions : List TypeDefinition
  deriving DecidableEq

/-- Embeds the parsed query document at the depth the claims need: the root
selection set as a list of field names (fragments already expanded). -/
structure QueryDocument where
  selections : List String
  deriving DecidableEq

/-- Embeds `QueryPlanError` from the crate root: the three declared error
kinds. -/
inductive QueryPlanError where
  | FailedParsingSchema : ParseError → QueryPlanError
  | FailedParsingQuery : ParseError → QueryPlanError
  | InvalidQuery : String → QueryPlanError
  deriving DecidableEq

/-- Embeds `QueryPlanningOptions`: a plain struct with the single
`auto_fragmentization` flag. -/
structure QueryPlanningOptions where
  auto_fragmentization : Bool
  deriving DecidableEq

/-- Embeds the `Default` instance derived on `QueryPlanningOptions`
(`#[derive(Default, ...)]`): `bool` defaults to `false`. -/
def QueryPlanningOptions.default : QueryPlanningOptions :=
  { auto_fragmentization := false }

/-- Embeds the `QueryPlanningOptionsBuilder` struct generated by
`#[derive(Builder)]`: each field wrapped in `Option`, unset by default. -/
structure QueryPlanningOptionsBuilder where
  auto_fragmentization : Option Bool
  deriving DecidableEq

/-- Embeds `QueryPlanningOptionsBuilder::default()`: all fields unset. -/
def QueryPlanningOptionsBuilder.default : QueryPlanningOptionsBuilder :=
  { auto_fragmentization := none }

/-- Embeds the `build` method generated by `#[derive(Builder)]`.  Because the
field carries `#[builder(default)]`, an unset field falls back to the field
type's `Default` value (`false` for `bool`), so `build` never returns the
builder's uninitialized-field error. -/
def QueryPlanningOptionsBuilder.build (b : QueryPlanningOptionsBuilder) :
    Except String QueryPlanningOptions :=
  .ok { auto_fragmentization := b.auto_fragmentization.getD false }

/-- Modelled from the spec: the plan-node variants of the output model
(`crate::model`, not under the provided sources): a tagged union of
`Fetch(serviceName, operation, variableUsages)`, `Sequence(nodes)`,
`Parallel(nodes)` and `Flatten(path, node)`. -/
inductive QueryPlanNode where
  | Fetch : String → String → List String → QueryPlanNode
  | Sequence : List QueryPlanNode → QueryPlanNode
  | Parallel : List QueryPlanNode → QueryPlanNode
  | Flatten : List String → QueryPlanNode → QueryPlanNode

/-- Modelled from the spec: the `QueryPlan` output value (`crate::model`
is not under the provided sources); identified with its root plan node. -/
abbrev QueryPlan := QueryPlanNode

/-- JSON string literal (names occurring in plans contain no characters that
need escaping). -/
def quoteJson (s : String) : String := "\"" ++ s ++ "\""

/-- JSON array of string literals. -/
def serializeStrings (l : List String) : String :=
  "[" ++ String.intercalate "," (l.map quoteJson) ++ "]"

mutual
/-- Modelled from the spec: the canonical JSON serialization of a plan node
(`crate::model` serialization is not under the provided sources): a `kind`
discriminator plus the variant-specific fields, in a fixed field order. -/
def serializeNode : QueryPlanNode → String
  | .Fetch service op vars =>
    "\x7b\"kind\":\"Fetch\",\"serviceName\":" ++ quoteJson service ++
      ",\"operation\":" ++ quoteJson op ++
      ",\"variableUsages\":" ++ serializeStrings vars ++ "\x7d"
  | .Sequence ns =>
    "\x7b\"kind\":\"Sequence\",\"nodes\":[" ++ serializeNodes ns ++ "]\x7d"
  | .Parallel ns =>
    "\x7b\"kind\":\"Parallel\",\"nodes\":[" ++ serializeNodes ns ++ "]\x7d"
  | .Flatten path n =>
    "\x7b\"kind\":\"Flatten\",\"path\":" ++ serializeStrings path ++
      ",\"node\":" ++ serializeNode n ++ "\x7d"

/-- Comma-separated serialization of a list of plan nodes. -/
def serializeNodes : List QueryPlanNode → String
  | [] => ""
  | [n] => serializeNode n
  | n :: ns => serializeNode n ++ "," ++ serializeNodes ns
end

/-- Whether a field name is defined by any type of the schema. -/
def fieldDefinedInSchema (s : SchemaDocument) (f : String) : Bool :=
  s.definitions.any (fun t => t.fields.any (fun fd => fd.name == f))

/-- The owning subgraph recorded for a field name, if any type defines it. -/
def owningSubgraphOf (s : SchemaDocument) (f : String) : Option String :=
  s.definitions.findSome?
    (fun t => t.fields.findSome?
      (fun fd => if fd.name == f then some fd.owningSubgraph else none))

/-- Operation text for a fetch group: the selections wrapped in braces. -/
def operationTextFor (sels : List String) : String :=
  "\x7b " ++ String.intercalate " " sels ++ " \x7d"

/-- Modelled from the spec: `build_query_plan` lives in `crate::builder`,
which is not under the provided sources.  Modelled at the depth the claims
need: a selected field not defined anywhere in the schema fails with
`InvalidQuery("field not served by any subgraph")`; otherwise the selections
are grouped by owning subgraph (first-appearance order), one `Fetch` per
group, a single group collapsing to a bare `Fetch` node and independent
groups forming one `Parallel` layer. -/
def build_query_plan (schema : SchemaDocument) (query : QueryDocument)
    (_options : QueryPlanningOptions) : Except QueryPlanError QueryPlan :=
  if query.selections.all (fun f => fieldDefinedInSchema schema f) then
    let subs := (query.selections.filterMap
      (fun f => owningSubgraphOf schema f)).eraseDups
    match subs with
    | [s] =>
      .ok (QueryPlanNode.Fetch s
        (operationTextFor (query.selections.filter
          (fun f => owningSubgraphOf schema f == some s))) [])
    | _ =>
      .ok (QueryPlanNode.Parallel (subs.map (fun s =>
        QueryPlanNode.Fetch s
          (operationTextFor (query.selections.filter
            (fun f => owningSubgraphOf schema f == some s))) [])))
  else
    .error (QueryPlanError.InvalidQuery "field not served by any subgraph")

/-- Embeds the `QueryPlanner` struct: the schema document parsed once at
construction, shared read-only by every `plan` call. -/
structure QueryPlanner where
  schema : SchemaDocument
  deriving DecidableEq

/-- Embeds `QueryPlanner::new`.  The external `graphql_parser::parse_schema`
call is represented by its result.  The Rust body is
`parse_schema(schema).expect("failed parsing schema")`: on a parse failure it
panics with that message; the return type is `QueryPlanner` (not `Result`),
so no `FailedParsingSchema` value can ever be returned. -/
def QueryPlanner.new (parsed : Except ParseError SchemaDocument) :
    Outcome QueryPlanError QueryPlanner :=
  match parsed with
  | .ok s => .ok { schema := s }
  | .error _ => .abort "failed parsing schema"

/-- Embeds `QueryPlanner::plan`.  The external `graphql_parser::parse_query`
call is represented by its result.  The Rust body is
`parse_query(query).expect("failed parsing query")` — a panic on a parse
failure — followed by `build_query_plan(&self.schema, &query, options)`,
whose `Result` is returned as is. -/
def QueryPlanner.plan (p : QueryPlanner)
    (parsedQuery : Except ParseError QueryDocument)
    (options : QueryPlanningOptions) : Outcome QueryPlanError QueryPlan :=
  match parsedQuery with
  | .error _ => .abort "failed parsing query"
  | .ok q =>
    match build_query_plan p.schema q options with
    | .ok pl => .ok pl
    | .error e => .err e

/-- State-passing form of `QueryPlanner::plan`: the method takes `&self` (an
immutable borrow, with no interior mutability anywhere in the struct), so the
planner handed back to the caller is the planner that was passed in. -/
def QueryPlanner.planCall (p : QueryPlanner)
    (parsedQuery : Except ParseError QueryDocument)
    (options : QueryPlanningOptions) :
    QueryPlanner × Outcome QueryPlanError QueryPlan :=
  (p, p.plan parsedQuery options)

/-- The serialized JSON of a successful planning call, `none` when the call
does not return a plan. -/
def planJson (p : QueryPlanner) (parsedQuery : Except ParseError QueryDocument)
    (options : QueryPlanningOptions) : Option String :=
  match p.plan parsedQuery options with
  | .ok pl => some (serializeNode pl)
  | _ => none

/- ### Claim theorems -/

/-- C1: the claim says `QueryPlanner::new` on unparseable SDL yields the typed
error `FailedParsingSchema` rather than terminating the process.  Evaluating
the embedded code at a failing parse shows the opposite: construction panics
with "failed parsing schema" and never returns a `FailedParsingSchema`
value. -/
theorem C1_new_panics_on_malformed_schema :
    QueryPlanner.new (Except.error { message := "syntax error" }) =
      Outcome.abort "failed parsing schema" ∧
    ∀ e, QueryPlanner.new (Except.error { message := "syntax error" }) ≠
      Outcome.err (QueryPlanError.FailedParsingSchema e) := by
  refine ⟨rfl, fun e h => ?_⟩
  exact Outcome.noConfusion h

/-- C2: the claim says `plan` on a syntactically malformed query returns the
typed error `FailedParsingQuery` as an `Err` value.  Evaluating the embedded
code at any failing query parse shows that `plan` instead panics with
"failed parsing query" and never returns a `FailedParsingQuery` value. -/
theorem C2_plan_panics_on_malformed_query (p : QueryPlanner) (e : ParseError)
    (o : QueryPlanningOptions) :
    p.plan (Except.error e) o = Outcome.abort "failed parsing query" ∧
    ∀ e2, p.plan (Except.error e) o ≠
      Outcome.err (QueryPlanError.FailedParsingQuery e2) := by
  refine ⟨rfl, fun e2 h => ?_⟩
  exact Outcome.noConfusion h

/-- Witness for C2 at a concrete planner, parse error and options. -/
theorem C2_plan_panics_on_malformed_query_witness :
    QueryPlanner.plan { schema := { definitions := [] } }
        (Except.error { message := "bad query" })
        { auto_fragmentization := false } =
      Outcome.abort "failed parsing query" :=
  (C2_plan_panics_on_malformed_query { schema := { definitions := [] } }
    { message := "bad query" } { auto_fragmentization := false }).1

/-- C3: a syntactically valid query selecting a field not defined anywhere in
the schema makes `plan` return `Err(InvalidQuery ..)` carrying a reason; it
does not panic and returns no plan value. -/
theorem C3_undefined_field_invalid_query (p : QueryPlanner) (q : QueryDocument)
    (o : QueryPlanningOptions) (f : String)
    (hf : f ∈ q.selections) (hnd : fieldDefinedInSchema p.schema f = false) :
    p.plan (Except.ok q) o =
      Outcome.err (QueryPlanError.InvalidQuery "field not served by any subgraph") ∧
    (∀ pl, p.plan (Except.ok q) o ≠ Outcome.ok pl) ∧
    (∀ m, p.plan (Except.ok q) o ≠ Outcome.abort m) := by
  have hall : (q.selections.all (fun g => fieldDefinedInSchema p.schema g)) = false := by
    rw [List.all_eq_false]
    exact ⟨f, hf, by simp [hnd]⟩
  have hmain : p.plan (Except.ok q) o =
      Outcome.err (QueryPlanError.InvalidQuery "field not served by any subgraph") := by
    simp [QueryPlanner.plan, build_query_plan, hall]
  refine ⟨hmain, fun pl h => ?_, fun m h => ?_⟩
  · rw [hmain] at h
    exact Outcome.noConfusion h
  · rw [hmain] at h
    exact Outcome.noConfusion h

/-- Witness for C3: a schema defining only `me` (owned by `accounts`) and a
query selecting `missing`. -/
theorem C3_undefined_field_invalid_query_witness :
    QueryPlanner.plan { schema := { definitions := [ { name := "Query", fields := [ { name := "me", owningSubgraph := "accounts" } ] } ] } }
      (Except.ok { selections := ["missing"] }) { auto_fragmentization := false } =
      Outcome.err (QueryPlanError.InvalidQuery "field not served by any subgraph") :=
  (C3_undefined_field_invalid_query _ _ _ "missing" (by simp) (by rfl)).1

/-- C4: planning is deterministic — two calls with the same schema, the same
parsed query and the same options return equal plans and byte-identical
serialized JSON. -/
theorem C4_plan_deterministic (p1 p2 : QueryPlanner)
    (q : Except ParseError QueryDocument) (o1 o2 : QueryPlanningOptions)
    (hs : p1.schema = p2.schema) (ho : o1 = o2) :
    p1.plan q o1 = p2.plan q o2 ∧ planJson p1 q o1 = planJson p2 q o2 := by
  obtain ⟨s1⟩ := p1
  obtain ⟨s2⟩ := p2
  cases ho
  cases hs
  exact ⟨rfl, rfl⟩

/-- Witness for C4 at a concrete schema, query and options. -/
theorem C4_plan_deterministic_witness :
    QueryPlanner.plan { schema := { definitions := [] } }
        (Except.ok { selections := [] }) { auto_fragmentization := false } =
      QueryPlanner.plan { schema := { definitions := [] } }
        (Except.ok { selections := [] }) { auto_fragmentization := false } ∧
    planJson { schema := { definitions := [] } }
        (Except.ok { selections := [] }) { auto_fragmentization := false } =
      planJson { schema := { definitions := [] } }
        (Except.ok { selections := [] }) { auto_fragmentization := false } :=
  C4_plan_deterministic { schema := { definitions := [] } }
    { schema := { definitions := [] } } (Except.ok { selections := [] })
    { auto_fragmentization := false } { auto_fragmentization := false } rfl rfl

/-- C5: default construction of the options — both the derived `Default`
value and `QueryPlanningOptionsBuilder::default().build()` — succeeds and
yields `auto_fragmentization = false`. -/
theorem C5_options_default :
    QueryPlanningOptionsBuilder.default.build =
      Except.ok { auto_fragmentization := false } ∧
    QueryPlanningOptions.default.auto_fragmentization = false :=
  ⟨rfl, rfl⟩

/-- C6: a `plan` call leaves the planner unchanged — the schema document
after the call is the schema document before the call. -/
theorem C6_plan_preserves_schema (p : QueryPlanner)
    (q : Except ParseError QueryDocument) (o : QueryPlanningOptions) :
    (p.planCall q o).1.schema = p.schema := rfl

/-- Witness for C6 at a concrete planner, query and options. -/
theorem C6_plan_preserves_schema_witness :
    (QueryPlanner.planCall { schema := { definitions := [] } }
        (Except.ok { selections := [] }) { auto_fragmentization := false }).1.schema =
      ({ definitions := [] } : SchemaDocument) :=
  C6_plan_preserves_schema { schema := { definitions := [] } }
    (Except.ok { selections := [] }) { auto_fragmentization := false }

/-- C7: the claim says both client operations return an error result on a
non-empty `errors` array, on transport error and on JSON-decode error.
Evaluating the embedded code shows the opposite: with decodable `data`
present both operations succeed even though `errors` is non-empty (the field
is never read), and transport or decode failures panic instead of returning
an error result. -/
theorem C7_client_error_envelope_behaviour :
    get_org_memberships (Except.ok "body")
        (Except.ok { data := some { me := some { memberships := [ { account := { id := "acct1" } } ] } }, errors := some [ { message := "boom" } ] }) =
      Outcome.ok (["acct1"].toFinset) ∧
    create_new_graph "g1" "a1" (Except.ok "body")
        (Except.ok { data := some { newService := { id := "svc", apiKeys := [ { token := "KEY" } ] } }, errors := some [ { message := "boom" } ] }) =
      Outcome.ok "KEY" ∧
    get_org_memberships (Except.error "connection refused")
        (Except.error "unused") = Outcome.abort "connection refused" ∧
    get_org_memberships (Except.ok "not json")
        (Except.error "expected value at line 1") =
      Outcome.abort "Invalid response from Apollo cloud!\nexpected value at line 1" :=
  ⟨rfl, rfl, rfl, rfl⟩

/-- C8 counterexample: a successfully decoded envelope whose `data` field is
absent (so `data.me` is absent) does not produce the authentication error —
the call panics on the `unwrap` instead. -/
theorem C8_counterexample_missing_data :
    get_org_memberships (Except.ok "body")
        (Except.ok { data := none, errors := some [ { message := "unauthorized" } ] }) =
      Outcome.abort "called Option::unwrap() on a None value" ∧
    get_org_memberships (Except.ok "body")
        (Except.ok { data := none, errors := some [ { message := "unauthorized" } ] }) ≠
      Outcome.err "Could not authenticate. Please check that your auth token is up-to-date" := by
  refine ⟨rfl, fun h => ?_⟩
  exact Outcome.noConfusion h

/-- C8 (amended): for every decoded membership response whose `data` field is
present, `get_org_memberships` returns `Ok` of exactly the set of account
identifiers of the memberships list when `me` is present, and the
authentication error when `me` is absent. -/
theorem C8_memberships_account_set (body : String)
    (r : GetOrgMembershipResponse) (m : GetOrgMembershipResponseMe)
    (hd : r.data = some m) :
    (∀ ms, m.me = some ms →
      ∃ s, get_org_memberships (Except.ok body) (Except.ok r) = Outcome.ok s ∧
        ∀ x, x ∈ s ↔ ∃ mb ∈ ms.memberships, mb.account.id = x) ∧
    (m.me = none →
      get_org_memberships (Except.ok body) (Except.ok r) =
        Outcome.err "Could not authenticate. Please check that your auth token is up-to-date") := by
  constructor
  · intro ms hme
    refine ⟨(ms.memberships.map (fun it => it.account.id)).toFinset, ?_, ?_⟩
    · simp [get_org_memberships, execute_operation_no_variables, hd, hme]
    · intro x
      simp [List.mem_toFinset, List.mem_map]
  · intro hme
    simp [get_org_memberships, execute_operation_no_variables, hd, hme]

/-- Witness for C8 (amended): a decoded response with `data` present and `me`
absent yields the authentication error. -/
theorem C8_memberships_account_set_witness :
    get_org_memberships (Except.ok "body")
        (Except.ok { data := some { me := none }, errors := none }) =
      Outcome.err "Could not authenticate. Please check that your auth token is up-to-date" :=
  (C8_memberships_account_set "body"
    { data := some { me := none }, errors := none } { me := none } rfl).2 rfl

/-- C9: `create_new_graph` is not total over decoded responses — it panics
when `data` is `None` and when `apiKeys` is empty, and no input whatsoever
makes it return an `Err` value. -/
theorem C9_create_new_graph_partiality :
    create_new_graph "g" "a" (Except.ok "body")
        (Except.ok { data := none, errors := some [ { message := "boom" } ] }) =
      Outcome.abort "called Option::unwrap() on a None value" ∧
    create_new_graph "g" "a" (Except.ok "body")
        (Except.ok { data := some { newService := { id := "svc", apiKeys := [] } }, errors := none }) =
      Outcome.abort "index out of bounds: the len is 0 but the index is 0" ∧
    ∀ (gid aid : String) (send : Except String String)
      (decoded : Except String CreateGraphResponse) (e : String),
      create_new_graph gid aid send decoded ≠ Outcome.err e := by
  refine ⟨rfl, rfl, ?_⟩
  intro gid aid send decoded e h
  cases send with
  | error te => simp [create_new_graph, execute_operation] at h
  | ok body =>
    cases decoded with
    | error de => simp [create_new_graph, execute_operation] at h
    | ok r =>
      cases hr : r.data with
      | none => simp [create_new_graph, execute_operation, hr] at h
      | some d =>
        cases hk : d.newService.apiKeys with
        | nil => simp [create_new_graph, execute_operation, hr, hk] at h
        | cons k ks => simp [create_new_graph, execute_operation, hr, hk] at h

/-- C10: a decoded membership envelope carrying only errors (its `data` field
is `None`) makes `get_org_memberships` panic on `result.data.unwrap()`; it
returns neither of its two declared error strings. -/
theorem C10_get_org_memberships_panic_on_missing_data :
    get_org_memberships (Except.ok "body")
        (Except.ok { data := none, errors := some [ { message := "boom" } ] }) =
      Outcome.abort "called Option::unwrap() on a None value" ∧
    get_org_memberships (Except.ok "body")
        (Except.ok { data := none, errors := some [ { message := "boom" } ] }) ≠
      Outcome.err "Could not fetch organizations" ∧
    get_org_memberships (Except.ok "body")
        (Except.ok { data := none, errors := some [ { message := "boom" } ] }) ≠
      Outcome.err "Could not authenticate. Please check that your auth token is up-to-date" := by
  refine ⟨rfl, fun h => ?_, fun h => ?_⟩
  · exact Outcome.noConfusion h
  · exact Outcome.noConfusion h

end Federation
